import Mathlib

/-!
Shallow embedding of the WhatsApp Diamond bot's conversation session state
machine (`src/services/whatsapp_client.py`), its intent detection
(`src/services/intent_detector.py`) and its certificate extraction
(`src/services/gia_extractor.py`).

Conventions of the embedding:
* Python strings become `String`; Python `None`-able values become `Option`.
* The free-form `session_context` dict becomes an association list
  `Ctx` of string keys to `CtxVal` (a string or a list of strings — the
  only value shapes the code ever stores: `price`, `contact_info` as
  strings, `images` as a list of URLs).
* Database rows and external-collaborator results (Supabase lookups,
  the design generator, the search handler, send/insert success) enter as
  explicit parameters, since the Python code receives them from I/O.
* Handlers are embedded as pure functions returning the ordered list of
  side effects (`Event`) they perform; `sessionAfter` folds the session
  updates of such a list over the loaded session, mirroring the fact that
  the handlers mutate the stored session only through
  `update_user_session`.
* Numeric payloads that the control flow never inspects (carat, confidence)
  are carried opaquely as strings.
-/

/-- A value stored in the session context dict: the code only ever stores
strings (`price`, `contact_info`) or lists of image-URL strings (`images`). -/
inductive CtxVal where
  | s (v : String)
  | l (vs : List String)
deriving DecidableEq, Repr

/-- The `session_context` dict: association list, first match wins. -/
abbrev Ctx := List (String × CtxVal)

/-- Python `dict.get(k)`. -/
def ctxGet (c : Ctx) (k : String) : Option CtxVal :=
  match c.find? (fun p => p.1 == k) with
  | some p => some p.2
  | none => none

/-- Python `dict[k] = v` (replace any earlier binding). -/
def ctxSet (c : Ctx) (k : String) (v : CtxVal) : Ctx :=
  (k, v) :: c.filter (fun p => !(p.1 == k))

/-- `context.get(k)` where the caller expects a string (`price`,
`contact_info`); a missing key is `None`. -/
def ctxGetStr (c : Ctx) (k : String) : Option String :=
  match ctxGet c k with
  | some (.s v) => some v
  | _ => none

/-- `context.get("images", [])`: the accumulated listing image URLs,
defaulting to the empty list when the key is absent. -/
def ctxGetImages (c : Ctx) : List String :=
  match ctxGet c "images" with
  | some (.l vs) => vs
  | _ => []

/-- Python `str.lower()` (the inputs compared are ASCII keywords such as
"contact" and "done"). Defined over the character list so that concrete
instances reduce inside the kernel. -/
def pyLower (s : String) : String := String.mk (s.data.map Char.toLower)

/-- Python truthiness of an optional string: `None` and `""` are falsy.
Used for `if result.get("report_number")`, `if session.get("last_diamond_id")`
and the like. -/
def pyTruthy : Option String → Bool
  | none => false
  | some s => !s.isEmpty

/-- Python `x or "default"` rendering of an optional value in an f-string:
`None` prints as `"None"`. -/
def pyStr (o : Option String) : String := o.getD "None"

/-- `d.get(k, "N/A")` for the summary f-strings (absent and null are
conflated into `none` by this embedding; both render as the default). -/
def orNA (o : Option String) : String := o.getD "N/A"

/-- The per-user session as loaded by `get_user_session`
(src/services/whatsapp_client.py lines 77-106): step, context dict and the
two last-referenced record ids. -/
structure Session where
  step : String
  context : Ctx
  last_diamond_id : Option String
  last_design_id : Option String
deriving DecidableEq, Repr

/-- A partial session update as passed to `update_user_session`
(src/services/whatsapp_client.py lines 109-129): each field is present
(`some`) or absent (`none`) in the `updates` dict. The code only ever
writes real ids, so a present id update carries the id itself. -/
structure SessionUpdate where
  step : Option String
  context : Option Ctx
  last_diamond_id : Option String
  last_design_id : Option String
deriving DecidableEq, Repr

/-- `update_user_session` builds `db_updates` from exactly the keys present
in `updates`; this is true iff that dict is non-empty, i.e. iff the
`if db_updates:` write fires. -/
def sessionUpdateNonempty (u : SessionUpdate) : Bool :=
  u.step.isSome || u.context.isSome || u.last_diamond_id.isSome ||
    u.last_design_id.isSome

/-- The effect of the `db_updates` write on the stored session row: each
present key overwrites its column, absent keys leave the column alone; the
context column is replaced wholesale. -/
def applySessionUpdate (s : Session) (u : SessionUpdate) : Session :=
  { step := match u.step with | some v => v | none => s.step
    context := match u.context with | some c => c | none => s.context
    last_diamond_id :=
      match u.last_diamond_id with | some v => some v | none => s.last_diamond_id
    last_design_id :=
      match u.last_design_id with | some v => some v | none => s.last_design_id }

/-- `update_user_session(user_id, updates)` (lines 109-129): returns the
stored session after the call together with whether a database write was
performed (`if db_updates:`). -/
def update_user_session (s : Session) (u : SessionUpdate) : Session × Bool :=
  if sessionUpdateNonempty u then (applySessionUpdate s u, true) else (s, false)

/-- A listing row as inserted into the `listings` table by
`handle_listing_flow` (lines 833-843). `created_at` is omitted (wall-clock). -/
structure ListingRecord where
  user_id : String
  diamond_id : Option String
  price : Option String
  contact_info : Option String
  images : List String
  status : String
deriving DecidableEq, Repr

/-- A design row as inserted into the `designs` table. Fields absent from a
particular insert (e.g. `user_input` for variations, `previous_prompt` for
fresh designs) are `none`. `created_at` omitted. -/
structure DesignRecord where
  user_id : String
  diamond_id : Option String
  type : String
  user_input : Option String
  previous_prompt : Option String
  generated_prompt : Option String
  generated_image_url : Option String
  status : String
deriving DecidableEq, Repr

/-- A diamond row as inserted into the `diamonds` table. The document path
(lines 582-616) fills all fields; the image path (lines 693-702) inserts a
narrower record, leaving the extra columns `none`. `created_at` omitted. -/
structure DiamondRecord where
  upload_id : Option String
  user_id : String
  shape : Option String
  carat : Option String
  color_type : Option String
  primary_hue : Option String
  modifier : Option String
  intensity : Option String
  clarity : Option String
  cut : Option String
  polish : Option String
  symmetry : Option String
  fluorescence : Option String
  certificate_number : Option String
  parsed_confidence : Option String
deriving DecidableEq, Repr

/-- One observable side effect of a handler, in execution order:
audit-log writes (`save_message_to_db`), the intent-detector call, outbound
sends, table inserts and session updates. -/
inductive Event where
  | saveMessage (direction mtype content : String)
  | detectIntent (text : String)
  | sendText (body : String)
  | sendButtons (body : String)
  | sendRaw (body : String)
  | sendImage (url : Option String) (caption : String)
  | insertListing (r : ListingRecord)
  | insertDesign (r : DesignRecord)
  | insertDiamond (r : DiamondRecord)
  | updateSession (u : SessionUpdate)
deriving DecidableEq, Repr

/-- The stored session after executing a handler's events: each
`updateSession` event goes through the `update_user_session` write. -/
def sessionAfter (s : Session) (evs : List Event) : Session :=
  evs.foldl (fun s ev =>
    match ev with
    | .updateSession u => (update_user_session s u).1
    | _ => s) s

/-- `Event.saveMessage "outgoing" ...`: an outbound audit-log write. -/
def isOutgoingSave : Event → Bool
  | .saveMessage d _ _ => d == "outgoing"
  | _ => false

/-- `Event.insertListing ...`. -/
def isInsertListing : Event → Bool
  | .insertListing _ => true
  | _ => false

/-- `Event.insertDiamond ...`. -/
def isInsertDiamond : Event → Bool
  | .insertDiamond _ => true
  | _ => false

/-- `Event.insertDesign ...`. -/
def isInsertDesign : Event → Bool
  | .insertDesign _ => true
  | _ => false

-- ====================================================================
-- Listing flow (src/services/whatsapp_client.py lines 771-853)
-- ====================================================================

/-- Prompt sent on entering `listing_price` (lines 786-789). -/
def pricePrompt : String :=
  "💰 Please provide the price for this diamond, or type \x27contact\x27 if you prefer \x27Contact for Price\x27."

/-- Prompt sent on entering `listing_contact` (lines 805-807). -/
def contactPrompt : String :=
  "📞 Please provide contact information for buyers (phone/email):"

/-- Prompt sent on entering `listing_media` (lines 816-819). -/
def mediaPrompt : String :=
  "📸 Great! Now please send one or more images of the diamond. Type \x27done\x27 when finished."

/-- Warning sent when "done" arrives with no images (lines 826-829). -/
def imagesWarning : String :=
  "⚠️ Please send at least one image before completing the listing."

/-- Confirmation sent after the listing insert succeeds (lines 845-848). -/
def listingSuccess : String :=
  "✅ Listing created and submitted for admin approval. You\x27ll be notified once it\x27s live!"

/-- Failure message of the listing insert's `except` branch (lines 850-853). -/
def listingFail : String :=
  "❌ Failed to create listing. Please try again."

/-- Message sent when a prerequisite diamond is missing (lines 776-779). -/
def noDiamondMsg : String :=
  "❌ No diamond found. Please upload a GIA certificate first."

/-- `handle_listing_flow(from_number, user_id, text, session)`
(lines 792-853). `insertOk` models whether the `listings` insert
succeeds (`False` = the insert raises and the `except` branch runs). -/
def handle_listing_flow (user_id text : String) (session : Session)
    (insertOk : Bool) : List Event :=
  if session.step == "listing_price" then
    let price := if pyLower text == "contact" then "Contact for Price" else text
    let context := ctxSet session.context "price" (.s price)
    [.updateSession ⟨some "listing_contact", some context, none, none⟩,
     .sendText contactPrompt]
  else if session.step == "listing_contact" then
    let context := ctxSet session.context "contact_info" (.s text)
    [.updateSession ⟨some "listing_media", some context, none, none⟩,
     .sendText mediaPrompt]
  else if session.step == "listing_media" && pyLower text == "done" then
    let context := session.context
    let images := ctxGetImages context
    if images.isEmpty then
      [.sendText imagesWarning]
    else if insertOk then
      [.insertListing ⟨user_id, session.last_diamond_id, ctxGetStr context "price",
         ctxGetStr context "contact_info", images, "pending_review"⟩,
       .sendText listingSuccess,
       .updateSession ⟨some "idle", some [], none, none⟩]
    else
      [.sendText listingFail]
  else []

/-- `handle_list_for_sale(from_number, user_id)` (lines 771-789): entered
from the GIA menu's "List for Sale" button. -/
def handle_list_for_sale (session : Session) : List Event :=
  if !(pyTruthy session.last_diamond_id) then
    [.sendText noDiamondMsg]
  else
    [.updateSession ⟨some "listing_price", some [], none, none⟩,
     .sendText pricePrompt]

-- ====================================================================
-- Intent detection (src/services/intent_detector.py lines 152-242) and
-- text-message dispatch (src/services/whatsapp_client.py lines 455-503)
-- ====================================================================

/-- Character-list substring test, needle first: `isSubChars kw.data t.data`
is Python `kw in t`. -/
def isSubChars (needle : List Char) : List Char → Bool
  | [] => needle.isEmpty
  | c :: t => needle.isPrefixOf (c :: t) || isSubChars needle t

/-- Python `kw in text` for strings. -/
def pyIn (kw text : String) : Bool := isSubChars kw.data text.data

/-- `IntentDetector._placeholder_detection(text, session)` (lines 152-242),
the detection path taken when no OSS-120B API key is configured; returns
the intent name (the confidence, entities and reasoning fields of the
result dict are never read by the dispatcher and are not modelled).
`has_last_gia` and `has_last_design_prompt` are the truthiness of
`session.get("last_gia")` and `session.get("last_design_prompt")`; the
session dict built by `get_user_session` carries neither key, so the
dispatcher's calls pass `false` for both. -/
def placeholder_detection (text : String)
    (has_last_gia has_last_design_prompt : Bool) : String :=
  let t := pyLower text
  if ["try again", "variation", "another", "different style"].any
      (fun kw => pyIn kw t) then
    "design_variation"
  else if (["change", "make it", "add", "remove", "modify", "edit",
      "thicker", "thinner", "gold", "silver", "platinum"].any
        (fun kw => pyIn kw t)) && has_last_design_prompt then
    -- when the edit keywords match but there is no design-session context,
    -- Python falls through to the later checks
    "design_edit"
  else if ["show me", "find", "search", "looking for", "want", "need",
      "carat", "oval", "round", "emerald", "price"].any
        (fun kw => pyIn kw t) then
    "search"
  else if ["design", "create", "make", "custom"].any (fun kw => pyIn kw t) then
    if has_last_gia then "design_with_gia" else "design_free_input"
  else if ["price", "sell", "list", "cost", "contact"].any
      (fun kw => pyIn kw t) then
    "listing_intent"
  else if ["hi", "hello", "hey", "thanks", "thank you", "bye", "goodbye"].any
      (fun kw => pyIn kw t) then
    "greeting"
  else
    "general_inquiry"

/-- Which feature handler the `if intent == ...` chain of
`handle_text_message` (lines 475-503) invokes. -/
inductive HandlerRef where
  | searchQuery
  | freeDesign
  | giaCustomDesign
  | giaPrereqMissing
  | designEdit
  | designVariation
  | listingFlow
  | generalInquiry
  | mainMenu
deriving DecidableEq, Repr

/-- The `if intent == ... elif ...` dispatch chain of `handle_text_message`
(lines 475-503). Only the `design_with_gia` arm reads the session (its
`session.get("last_diamond_id")` truthiness check, lines 481-488); the
final `else` (including the "greeting" intent) falls back to the main
menu. -/
def dispatch_intent (intent : String) (s : Session) : HandlerRef :=
  if intent == "search" then .searchQuery
  else if intent == "design_free_input" then .freeDesign
  else if intent == "design_with_gia" then
    if pyTruthy s.last_diamond_id then .giaCustomDesign else .giaPrereqMissing
  else if intent == "design_edit" then .designEdit
  else if intent == "design_variation" then .designVariation
  else if intent == "listing_intent" then .listingFlow
  else if intent == "general_inquiry" then .generalInquiry
  else .mainMenu

/-- The handler `handle_text_message` selects for a text, with detection by
`_placeholder_detection` (the configured path); the session dict passed to
`detect` has no `last_gia`/`last_design_prompt` keys, hence the two
`false`s. -/
def route_text (text : String) (s : Session) : HandlerRef :=
  dispatch_intent (placeholder_detection text false false) s

-- ====================================================================
-- GIA certificate extraction (src/services/gia_extractor.py lines 87-153)
-- and certificate ingestion (src/services/whatsapp_client.py lines 550-719)
-- ====================================================================

/-- The raw field structure returned by the vision model / placeholder for a
certificate (src/services/gia_extractor.py). `none` models a missing or
null field; values the control flow never inspects are carried as strings.
`certificate_number` is a key the extractor itself never emits (its schema
uses `report_number`), but `handle_image_message` and
`handle_document_message` look it up, so it is kept. -/
structure GiaData where
  report_number : Option String
  certificate_number : Option String
  shape : Option String
  carat : Option String
  color : Option String
  color_type : Option String
  primary_hue : Option String
  modifier : Option String
  intensity : Option String
  clarity : Option String
  cut : Option String
  polish : Option String
  symmetry : Option String
  fluorescence : Option String
  confidence : Option String
deriving DecidableEq, Repr

/-- The wrapper dict returned by `GIAExtractor.extract_from_image` /
`extract_from_pdf`. On a semantic failure the raw data is still carried in
`data`. -/
structure ExtractResult where
  success : Bool
  data : Option GiaData
  error : Option String
deriving DecidableEq, Repr

/-- `GIAExtractor.extract_from_image(image_url)` validation step
(src/services/gia_extractor.py lines 114-153), applied to the raw model
output `raw`: success iff `result.get("report_number")` is truthy;
otherwise a failure wrapper that still carries the data. -/
def extract_from_image (raw : GiaData) : ExtractResult :=
  if pyTruthy raw.report_number then
    ⟨true, some raw, none⟩
  else
    ⟨false, some raw, some "Could not find GIA report number in image"⟩

/-- `GIAExtractor.extract_from_pdf` (lines 87-112) converts the PDF to an
image and delegates to `extract_from_image`; given the converted image's
raw model output it returns the same validated wrapper. -/
def extract_from_pdf (raw : GiaData) : ExtractResult := extract_from_image raw

/-- `GIAExtractor._placeholder_extraction` (lines 272-302), restricted to
the fields this embedding tracks (numbers carried as decimal strings). -/
def placeholder_extraction : GiaData :=
  ⟨some "PLACEHOLDER_12345", none, some "Round Brilliant", some "1.01",
   some "E", none, none, none, none, some "VS2", some "Excellent",
   some "Excellent", some "Very Good", some "None", none⟩

/-- The `✅ GIA Certificate Processed` summary of `send_gia_menu`
(lines 292-304); `d.get('color','N/A') or d.get('primary_hue','N/A')`
falls through to `primary_hue` when the color value is null. -/
def giaSummary (d : GiaData) : String :=
  "✅ *GIA Certificate Processed*\n\n📊 *Diamond Details:*\n• Shape: " ++
    orNA d.shape ++ "\n• Carat: " ++ orNA d.carat ++ "\n• Color: " ++
    (match d.color with
     | some c => c
     | none => orNA d.primary_hue) ++
    "\n• Clarity: " ++ orNA d.clarity ++ "\n• Cut: " ++ orNA d.cut ++
    "\n• Report #: " ++ orNA d.certificate_number ++
    "\n\nWhat would you like to do?"

/-- `send_gia_menu(to, user_id, diamond_data)` (lines 292-321): the
interactive buttons followed by the outgoing audit write of the summary. -/
def send_gia_menu (d : GiaData) : List Event :=
  [.sendButtons (giaSummary d),
   .saveMessage "outgoing" "interactive" (giaSummary d)]

/-- Python `a or b` over two optional strings (used for
`diamond_data.get("report_number") or diamond_data.get("certificate_number")`,
line 610): falsy (`None`/`""`) falls through to the second operand. -/
def pyOrOpt (a b : Option String) : Option String :=
  if pyTruthy a then a else b

/-- The `diamonds` row built by `handle_document_message` (lines 582-616). -/
def pdfDiamondRecord (uploadId : Option String) (uid : String)
    (d : GiaData) : DiamondRecord :=
  ⟨uploadId, uid, d.shape, d.carat, d.color_type, d.primary_hue, d.modifier,
   d.intensity, d.clarity, d.cut, d.polish, d.symmetry, d.fluorescence,
   pyOrOpt d.report_number d.certificate_number,
   some (d.confidence.getD "0.95")⟩

/-- The narrower `diamonds` row built by `handle_image_message`
(lines 693-702); columns that insert omits are `none`. -/
def imageDiamondRecord (uploadId : Option String) (uid : String)
    (d : GiaData) : DiamondRecord :=
  ⟨uploadId, uid, d.shape, d.carat, none, none, none, none, d.clarity, d.cut,
   none, none, none, d.certificate_number, none⟩

/-- `handle_document_message(from_number, media_id, filename, mime_type)`
(lines 550-637). `downloadOk`/`uploadOk` are the outcomes of the media
download and storage upload, `raw` the vision model's output for the
converted certificate, `insertOk` whether the `diamonds` insert returns a
row (`False` covers both the insert raising and returning no data — both
send the same failure message), `newDiamondId` the returned row id. -/
def handle_document_message (uid : String) (downloadOk uploadOk : Bool)
    (uploadId : Option String) (raw : GiaData) (insertOk : Bool)
    (newDiamondId : String) : List Event :=
  .sendText "📄 Processing your document..." ::
  if !downloadOk then
    [.sendText "❌ Failed to download document. Please try again."]
  else if !uploadOk then
    [.sendText "❌ Failed to process document. Please try again."]
  else
    .sendText "🔍 Extracting diamond information..." ::
    let gia := extract_from_pdf raw
    match gia.data, gia.success with
    | some d, true =>
      if insertOk then
        .insertDiamond (pdfDiamondRecord uploadId uid d) ::
        .updateSession ⟨some "gia_menu", none, some newDiamondId, none⟩ ::
        send_gia_menu d
      else
        [.sendText "❌ Failed to save diamond data."]
    | _, _ =>
      -- error_msg = gia_data.get("error", "Unknown error") (line 633)
      [.sendText ("❌ Failed to extract GIA data: " ++
        ((extract_from_pdf raw).error.getD "Unknown error") ++
        "\n\nPlease ensure the document is a valid GIA certificate.")]

/-- `handle_image_message(from_number, media_id)` (lines 640-719).
When the session step is `listing_media` the image is appended to
`context.images` (lines 657-673); otherwise the image goes through GIA
extraction, and a diamond row is created only when the wrapper reports
success *and* `data.get("certificate_number")` is truthy (line 687). An
insert that raises or returns no row (`insertOk = false`) produces no
message at all (the code only logs). -/
def handle_image_message (uid : String) (s : Session)
    (downloadOk uploadOk : Bool) (uploadId : Option String) (fileUrl : String)
    (raw : GiaData) (insertOk : Bool) (newDiamondId : String) : List Event :=
  .sendText "🖼️ Processing your image..." ::
  if !downloadOk then
    [.sendText "❌ Failed to download image. Please try again."]
  else if s.step == "listing_media" then
    if uploadOk then
      let images := ctxGetImages s.context ++ [fileUrl]
      let context := ctxSet s.context "images" (.l images)
      [.updateSession ⟨none, some context, none, none⟩,
       .sendText ("✅ Image " ++ toString images.length ++
         " added! Send more images or type \x27done\x27 to complete the listing.")]
    else []
  else if !uploadOk then
    [.sendText "❌ Failed to process image. Please try again."]
  else
    .sendText "🔍 Analyzing image..." ::
    let gia := extract_from_image raw
    match gia.data, gia.success with
    | some d, true =>
      if pyTruthy d.certificate_number then
        if insertOk then
          .insertDiamond (imageDiamondRecord uploadId uid d) ::
          .updateSession ⟨some "gia_menu", none, some newDiamondId, none⟩ ::
          send_gia_menu d
        else []
      else
        [.sendText "This doesn\x27t appear to be a GIA certificate. If you\x27d like to use this as a design reference, please describe what you\x27d like to create."]
    | _, _ =>
      [.sendText "This doesn\x27t appear to be a GIA certificate. If you\x27d like to use this as a design reference, please describe what you\x27d like to create."]

-- ====================================================================
-- Design handlers (src/services/whatsapp_client.py lines 931-1171)
-- ====================================================================

/-- A `designs` table row as read back for edit/variation
(lines 1067-1076, 1127-1135). -/
structure DesignRow where
  id : String
  diamond_id : Option String
  generated_prompt : Option String
  generated_image_url : Option String
deriving DecidableEq, Repr

/-- A design-generator result dict
(src/services/design_generator.py: every public method returns
`success` plus `image_url`/`prompt` or `error`). -/
structure DesignResult where
  success : Bool
  image_url : Option String
  prompt : Option String
  error : Option String
deriving DecidableEq, Repr

/-- A `listings` row as returned by the search handler and rendered by
`handle_search_query` (lines 1267-1290). -/
structure ListingRow where
  diamond_id : Option String
  price : Option String
  images : List String
deriving DecidableEq, Repr

/-- A `diamonds` table row as read back for search-result rendering. -/
structure DiamondRow where
  shape : Option String
  carat : Option String
  primary_hue : Option String
  clarity : Option String
  cut : Option String
  certificate_number : Option String
deriving DecidableEq, Repr

/-- Outcomes of the external collaborators consulted while handling one
text message: user resolution, the search handler, the per-listing
diamond lookups, the design generator, the `designs`/`diamonds` lookups,
and the database inserts. -/
structure Env where
  userOk : Bool
  searchSuccess : Bool
  searchError : Option String
  searchListings : List ListingRow
  diamondOf : Option String → Option DiamondRow
  gen : DesignResult
  designLookup : Option DesignRow
  diamondLookup : Option DiamondRow
  designInsertId : Option String
  designInsertExc : Bool
  listingInsertOk : Bool

/-- The update written after a successful design insert
(`{"last_design_id": design_id}`). -/
def designIdUpdate (nid : String) : SessionUpdate := ⟨none, none, none, some nid⟩

/-- `handle_design_edit(from_number, user_id, edit_description)`
(lines 1053-1113). `lookup` is the `designs` row fetched for
`session.last_design_id`; an insert that raises (`insertExc`) lands in the
handler's `except` and sends the generic error; an insert returning no row
(`insertedId = none`) skips the `last_design_id` update but still sends the
image. -/
def handle_design_edit (uid desc : String) (s : Session)
    (lookup : Option DesignRow) (gen : DesignResult)
    (insertedId : Option String) (insertExc : Bool) : List Event :=
  if !(pyTruthy s.last_design_id) then
    [.sendText "❌ No previous design found. Please create a design first."]
  else
    match lookup with
    | none => [.sendText "❌ Design not found."]
    | some prev =>
      .sendText "✏️ Applying your changes..." ::
      if gen.success then
        if insertExc then [.sendText "❌ An error occurred. Please try again."]
        else
          .insertDesign ⟨uid, prev.diamond_id, "edit", some desc,
            prev.generated_prompt, gen.prompt, gen.image_url, "completed"⟩ ::
          ((match insertedId with
            | some nid => [.updateSession (designIdUpdate nid)]
            | none => []) ++
           [.sendImage gen.image_url "✨ Updated design"])
      else
        [.sendText ("❌ Failed to edit design: " ++ pyStr gen.error)]

/-- `handle_design_variation(from_number, user_id)` (lines 1116-1171). -/
def handle_design_variation (uid : String) (s : Session)
    (lookup : Option DesignRow) (gen : DesignResult)
    (insertedId : Option String) (insertExc : Bool) : List Event :=
  if !(pyTruthy s.last_design_id) then
    [.sendText "❌ No previous design found."]
  else
    match lookup with
    | none => [.sendText "❌ Design not found."]
    | some prev =>
      .sendText "🎨 Generating variation..." ::
      if gen.success then
        if insertExc then [.sendText "❌ An error occurred. Please try again."]
        else
          .insertDesign ⟨uid, prev.diamond_id, "variation", none,
            prev.generated_prompt, gen.prompt, gen.image_url, "completed"⟩ ::
          ((match insertedId with
            | some nid => [.updateSession (designIdUpdate nid)]
            | none => []) ++
           [.sendImage gen.image_url "✨ Design variation"])
      else
        [.sendText ("❌ Failed to create variation: " ++ pyStr gen.error)]

/-- `handle_free_design(from_number, user_id, description)`
(lines 931-977). Its `try` covers only the insert-and-send block, and its
`except` merely logs, so an insert exception cuts the event list short
with no further message. -/
def handle_free_design (uid desc : String) (gen : DesignResult)
    (insertedId : Option String) (insertExc : Bool) : List Event :=
  .sendText "🎨 Creating your custom jewelry design..." ::
  if gen.success then
    if insertExc then []
    else
      .insertDesign ⟨uid, none, "free_input", some desc, none, gen.prompt,
        gen.image_url, "completed"⟩ ::
      ((match insertedId with
        | some nid => [.updateSession (designIdUpdate nid)]
        | none => []) ++
       [.sendImage gen.image_url "✨ Your custom jewelry design",
        .sendButtons "What would you like to do?"])
  else
    [.sendText ("❌ Failed to generate design: " ++ pyStr gen.error)]

/-- `handle_gia_custom_design(from_number, user_id, description)`
(lines 980-1050): requires `last_diamond_id`, fetches the diamond row,
generates, inserts a `gia_custom` design and updates `last_design_id`. -/
def handle_gia_custom_design (uid desc : String) (s : Session)
    (diamondLookup : Option DiamondRow) (gen : DesignResult)
    (insertedId : Option String) (insertExc : Bool) : List Event :=
  if !(pyTruthy s.last_diamond_id) then
    [.sendText noDiamondMsg]
  else
    match diamondLookup with
    | none => [.sendText "❌ Diamond data not found."]
    | some d =>
      .sendText "🎨 Creating custom design with your diamond..." ::
      if gen.success then
        if insertExc then [.sendText "❌ An error occurred. Please try again."]
        else
          .insertDesign ⟨uid, s.last_diamond_id, "gia_custom", some desc, none,
            gen.prompt, gen.image_url, "completed"⟩ ::
          ((match insertedId with
            | some nid => [.updateSession (designIdUpdate nid)]
            | none => []) ++
           [.sendImage gen.image_url
              ("✨ Custom design featuring your " ++ pyStr d.shape ++ " diamond"),
            .sendButtons "What would you like to do?"])
      else
        [.sendText ("❌ Failed to generate design: " ++ pyStr gen.error)]

-- ====================================================================
-- Search and inquiry handlers (lines 1249-1326)
-- ====================================================================

/-- The per-result message of `handle_search_query` (lines 1275-1284). -/
def searchResultMessage (d : DiamondRow) (l : ListingRow) : String :=
  "💎 " ++ orNA d.shape ++ " Diamond\n\n📊 Specs:\n• Carat: " ++
    orNA d.carat ++ "\n• Color: " ++ orNA d.primary_hue ++ "\n• Clarity: " ++
    orNA d.clarity ++ "\n• Cut: " ++ orNA d.cut ++ "\n• Price: " ++
    (l.price.getD "Contact for Price") ++ "\n\nReport: " ++
    orNA d.certificate_number

/-- `handle_search_query(from_number, user_id, query, intent_result)`
(lines 1249-1304): renders the top three listings (a listing whose diamond
lookup returns no row is skipped), then a view-more button when more than
three matched. -/
def handle_search_query (env : Env) : List Event :=
  .sendText "🔍 Searching for diamonds..." ::
  if env.searchSuccess then
    if env.searchListings.isEmpty then
      [.sendText "😔 No diamonds found matching your criteria. Try adjusting your search."]
    else
      ((env.searchListings.take 3).flatMap (fun l =>
        match env.diamondOf l.diamond_id with
        | some d =>
          match l.images with
          | [] => [.sendText (searchResultMessage d l)]
          | u :: _ => [.sendImage (some u) (searchResultMessage d l)]
        | none => [])) ++
      (if env.searchListings.length > 3 then
        [.sendButtons ("Showing 3 of " ++
          toString env.searchListings.length ++ " results")]
      else [])
  else
    [.sendText ("❌ Search failed: " ++ pyStr env.searchError)]

/-- The canned `handle_general_inquiry` response (lines 1315-1326). -/
def generalInquiryResponse : String :=
  "Thank you for your question! \n\nOur diamond experts are here to help. For immediate assistance:\n• Email: support@diamondbot.com\n• Phone: +1-XXX-XXX-XXXX\n\nOr continue chatting - I\x27ll do my best to assist you!"

/-- The fixed prerequisite-missing instruction of the `design_with_gia`
branch (lines 484-488). -/
def giaPrereqMsg : String :=
  "Please upload a GIA certificate first to design jewelry with your diamond."

/-- The main-menu body text sent (and audited) by `send_main_menu`
(lines 336-391). -/
def mainMenuBody : String :=
  "I can help you with various diamond services. Please select an option below 👇"

-- ====================================================================
-- Text-message dispatch (lines 455-503)
-- ====================================================================

/-- The events of the feature handler selected by the dispatch chain. -/
def handlerEvents (uid text : String) (s : Session) (env : Env) :
    HandlerRef → List Event
  | .searchQuery => handle_search_query env
  | .freeDesign => handle_free_design uid text env.gen env.designInsertId
      env.designInsertExc
  | .giaCustomDesign => handle_gia_custom_design uid text s env.diamondLookup
      env.gen env.designInsertId env.designInsertExc
  | .giaPrereqMissing => [.sendText giaPrereqMsg]
  | .designEdit => handle_design_edit uid text s env.designLookup env.gen
      env.designInsertId env.designInsertExc
  | .designVariation => handle_design_variation uid s env.designLookup env.gen
      env.designInsertId env.designInsertExc
  | .listingFlow => handle_listing_flow uid text s env.listingInsertOk
  | .generalInquiry => [.sendText generalInquiryResponse]
  | .mainMenu => [.sendRaw mainMenuBody,
      .saveMessage "outgoing" "interactive" mainMenuBody]

/-- `handle_text_message(from_number, text)` (lines 455-503) with the
detected intent as a parameter (the detector may be the OSS-120B API or
the keyword placeholder): resolve the user, save the inbound message to
the audit log, call the intent detector, dispatch. -/
def handle_text_message_with (uid text : String) (s : Session) (env : Env)
    (intent : String) : List Event :=
  if !env.userOk then
    [.sendText "❌ Error connecting to system. Please try again."]
  else
    .saveMessage "incoming" "text" text ::
    .detectIntent text ::
    handlerEvents uid text s env (dispatch_intent intent s)

/-- `handle_text_message` on the configured detection path
(`_placeholder_detection`; the session dict passed to `detect` has no
`last_gia`/`last_design_prompt` keys). -/
def handle_text_message (uid text : String) (s : Session) (env : Env) :
    List Event :=
  handle_text_message_with uid text s env (placeholder_detection text false false)

example : placeholder_detection "show me oval diamonds" false false = "search" := by
  decide

example : placeholder_detection "sell" false false = "listing_intent" := by decide

example : placeholder_detection "done" false false = "general_inquiry" := by decide

example : placeholder_detection "contact" false false = "listing_intent" := by
  decide

example :
    route_text "show me oval diamonds" ⟨"listing_price", [], some "d1", none⟩ =
      .searchQuery := by decide

-- ====================================================================
-- Claims
-- ====================================================================

/-- A concrete session parked at `listing_media` with one accumulated
image, used by witnesses. -/
def sampleMediaSession : Session :=
  ⟨"listing_media",
   [("price", .s "5000"), ("contact_info", .s "x@example.com"),
    ("images", .l ["https://img/1.jpg"])],
   some "d1", none⟩

/-- C1: at step `listing_media`, input "done" creates a listing iff the
context's image list is non-empty; with no images the handler sends only
the warning and leaves the session untouched; with images (and a
successful insert) it inserts the record built from the accumulated
context and `last_diamond_id`, and resets the session to `idle` with empty
context. -/
theorem listing_done_commits_iff_images (uid text : String) (s : Session)
    (ok : Bool) (hstep : s.step = "listing_media")
    (hdone : pyLower text = "done") :
    (ok = true →
      ((∃ r, Event.insertListing r ∈ handle_listing_flow uid text s ok) ↔
        ctxGetImages s.context ≠ [])) ∧
    (ctxGetImages s.context = [] →
      handle_listing_flow uid text s ok = [Event.sendText imagesWarning] ∧
      sessionAfter s (handle_listing_flow uid text s ok) = s) ∧
    (ctxGetImages s.context ≠ [] → ok = true →
      handle_listing_flow uid text s ok =
        [Event.insertListing ⟨uid, s.last_diamond_id,
           ctxGetStr s.context "price", ctxGetStr s.context "contact_info",
           ctxGetImages s.context, "pending_review"⟩,
         Event.sendText listingSuccess,
         Event.updateSession ⟨some "idle", some [], none, none⟩] ∧
      sessionAfter s (handle_listing_flow uid text s ok) =
        ⟨"idle", [], s.last_diamond_id, s.last_design_id⟩) := by
  have e : handle_listing_flow uid text s ok =
      (if (ctxGetImages s.context).isEmpty then [.sendText imagesWarning]
       else if ok then
        [.insertListing ⟨uid, s.last_diamond_id, ctxGetStr s.context "price",
           ctxGetStr s.context "contact_info", ctxGetImages s.context,
           "pending_review"⟩,
         .sendText listingSuccess,
         .updateSession ⟨some "idle", some [], none, none⟩]
       else [.sendText listingFail]) := by
    simp [handle_listing_flow, hstep, hdone]
  by_cases himg : ctxGetImages s.context = []
  · refine ⟨fun hok => ?_, fun _ => ?_, fun h => absurd himg h⟩
    · rw [e]
      simp [himg]
    · rw [e]
      simp [himg, sessionAfter]
  · have himg' : (ctxGetImages s.context).isEmpty = false := by
      simpa [List.isEmpty_iff] using himg
    refine ⟨fun hok => ?_, fun h => absurd h himg, fun _ hok => ?_⟩
    · rw [e]
      simp [himg', hok, himg]
    · rw [e]
      simp [himg', hok, sessionAfter, update_user_session,
        sessionUpdateNonempty, applySessionUpdate]

/-- C1 witness: the theorem applied at a concrete committed listing. -/
theorem listing_done_commits_iff_images_witness :
    (∃ r, Event.insertListing r ∈
      handle_listing_flow "u" "done" sampleMediaSession true) ∧
    sessionAfter sampleMediaSession
      (handle_listing_flow "u" "done" sampleMediaSession true) =
      ⟨"idle", [], some "d1", none⟩ := by
  have h := listing_done_commits_iff_images "u" "done" sampleMediaSession true
    rfl (by decide)
  exact ⟨(h.1 rfl).2 (by decide), ((h.2.2 (by decide) rfl)).2⟩

/-- C9 counterexample: at `listing_price` the uppercase input "CONTACT" is
not stored verbatim (as the claim's "any other text input is stored
verbatim" clause requires), because the code lowercases before comparing:
the sentinel "Contact for Price" is stored instead. -/
theorem listing_price_contact_counterexample :
    ctxGetStr (sessionAfter ⟨"listing_price", [], some "d1", none⟩
      (handle_listing_flow "u" "CONTACT"
        ⟨"listing_price", [], some "d1", none⟩ true)).context "price" =
      some "Contact for Price" ∧
    ctxGetStr (sessionAfter ⟨"listing_price", [], some "d1", none⟩
      (handle_listing_flow "u" "CONTACT"
        ⟨"listing_price", [], some "d1", none⟩ true)).context "price" ≠
      some "CONTACT" := by decide

/-- C9 (amended): at `listing_price`, any input whose lowercasing is
"contact" stores the sentinel "Contact for Price" as `context.price`
(in particular the literal input "contact"); any input whose lowercasing
is not "contact" is stored verbatim; either way the step moves to
`listing_contact` and the two last-referenced ids are untouched. -/
theorem listing_price_stores_price (uid text : String) (s : Session)
    (ok : Bool) (hstep : s.step = "listing_price") :
    (sessionAfter s (handle_listing_flow uid text s ok)).step =
      "listing_contact" ∧
    (pyLower text = "contact" →
      ctxGetStr (sessionAfter s (handle_listing_flow uid text s ok)).context
        "price" = some "Contact for Price") ∧
    (pyLower text ≠ "contact" →
      ctxGetStr (sessionAfter s (handle_listing_flow uid text s ok)).context
        "price" = some text) ∧
    (sessionAfter s (handle_listing_flow uid text s ok)).last_diamond_id =
      s.last_diamond_id ∧
    (sessionAfter s (handle_listing_flow uid text s ok)).last_design_id =
      s.last_design_id := by
  have e : handle_listing_flow uid text s ok =
      [.updateSession ⟨some "listing_contact",
         some (ctxSet s.context "price"
           (.s (if pyLower text == "contact" then "Contact for Price"
                else text))), none, none⟩,
       .sendText contactPrompt] := by
    simp [handle_listing_flow, hstep]
  rw [e]
  by_cases hc : pyLower text = "contact" <;>
    simp [hc, sessionAfter, update_user_session, sessionUpdateNonempty,
      applySessionUpdate, ctxGetStr, ctxSet, ctxGet]

/-- C9 witness: the sentinel case at the literal input "contact" and the
verbatim case at "5000". -/
theorem listing_price_stores_price_witness :
    ctxGetStr (sessionAfter ⟨"listing_price", [], some "d1", none⟩
      (handle_listing_flow "u" "contact"
        ⟨"listing_price", [], some "d1", none⟩ true)).context "price" =
      some "Contact for Price" ∧
    ctxGetStr (sessionAfter ⟨"listing_price", [], some "d1", none⟩
      (handle_listing_flow "u" "5000"
        ⟨"listing_price", [], some "d1", none⟩ true)).context "price" =
      some "5000" ∧
    (sessionAfter ⟨"listing_price", [], some "d1", none⟩
      (handle_listing_flow "u" "5000"
        ⟨"listing_price", [], some "d1", none⟩ true)).step =
      "listing_contact" := by
  refine ⟨(listing_price_stores_price "u" "contact"
      ⟨"listing_price", [], some "d1", none⟩ true rfl).2.1 (by decide),
    (listing_price_stores_price "u" "5000"
      ⟨"listing_price", [], some "d1", none⟩ true rfl).2.2.1 (by decide),
    (listing_price_stores_price "u" "5000"
      ⟨"listing_price", [], some "d1", none⟩ true rfl).1⟩

/-- C10: the listing flow's trigger words are matched after lowercasing:
any input lowercasing to "contact" behaves at `listing_price` exactly like
the literal "contact" (and stores the sentinel price), any input
lowercasing to "done" behaves at `listing_media` exactly like the literal
"done" (the commit is attempted), and any input at `listing_media` not
lowercasing to "done" produces no listing-flow action at all. -/
theorem listing_triggers_case_insensitive (uid text : String) (s : Session)
    (ok : Bool) :
    (pyLower text = "contact" → s.step = "listing_price" →
      handle_listing_flow uid text s ok =
        handle_listing_flow uid "contact" s ok ∧
      ctxGetStr (sessionAfter s (handle_listing_flow uid text s ok)).context
        "price" = some "Contact for Price") ∧
    (pyLower text = "done" → s.step = "listing_media" →
      handle_listing_flow uid text s ok =
        handle_listing_flow uid "done" s ok) ∧
    (pyLower text ≠ "done" → s.step = "listing_media" →
      handle_listing_flow uid text s ok = []) := by
  have lc : pyLower "contact" = "contact" := by decide
  have ld : pyLower "done" = "done" := by decide
  refine ⟨fun hc hstep => ?_, fun hd hstep => ?_, fun hnd hstep => ?_⟩
  · refine ⟨by simp [handle_listing_flow, hstep, hc, lc], ?_⟩
    simp [handle_listing_flow, hstep, hc, sessionAfter, update_user_session,
      sessionUpdateNonempty, applySessionUpdate, ctxGetStr, ctxSet, ctxGet]
  · simp [handle_listing_flow, hstep, hd, ld]
  · have : (pyLower text == "done") = false := by
      simpa using hnd
    simp [handle_listing_flow, hstep, this]

/-- C2 counterexample: with the session parked at `listing_price`, the text
"show me oval diamonds" is dispatched to the search handler, not the
listing-flow handler — the open collection step does not take precedence
over the freshly detected intent. -/
theorem open_step_overridden_by_intent :
    route_text "show me oval diamonds"
      ⟨"listing_price", [("price", .s "5000")], some "d1", none⟩ =
      HandlerRef.searchQuery ∧
    route_text "show me oval diamonds"
      ⟨"listing_price", [("price", .s "5000")], some "d1", none⟩ ≠
      HandlerRef.listingFlow := by decide

/-- C2 (amended): `handle_text_message` dispatches on the detected intent
alone — the session's step and context never influence the choice of
handler (only `last_diamond_id` does, inside the `design_with_gia` arm) —
and the listing-flow handler is invoked exactly when the detected intent
is `listing_intent`, whatever the current step. -/
theorem dispatch_ignores_step (intent : String) (s₁ s₂ : Session)
    (h : s₁.last_diamond_id = s₂.last_diamond_id) :
    dispatch_intent intent s₁ = dispatch_intent intent s₂ ∧
    (dispatch_intent intent s₁ = HandlerRef.listingFlow ↔
      intent = "listing_intent") := by
  constructor
  · unfold dispatch_intent
    rw [h]
  · unfold dispatch_intent
    rcases em (intent = "search") with h1 | h1 <;>
      rcases em (intent = "design_free_input") with h2 | h2 <;>
        rcases em (intent = "design_with_gia") with h3 | h3 <;>
          rcases em (intent = "design_edit") with h4 | h4 <;>
            rcases em (intent = "design_variation") with h5 | h5 <;>
              rcases em (intent = "listing_intent") with h6 | h6 <;>
                rcases em (intent = "general_inquiry") with h7 | h7 <;>
                  simp_all <;> split <;> simp

/-- C2 witness: the amended theorem applied at the counterexample's text
and two sessions differing in step and context. -/
theorem dispatch_ignores_step_witness :
    dispatch_intent (placeholder_detection "show me oval diamonds" false false)
      ⟨"listing_price", [("price", .s "5000")], some "d1", none⟩ =
      dispatch_intent (placeholder_detection "show me oval diamonds" false false)
        ⟨"idle", [], some "d1", some "x"⟩ ∧
    (dispatch_intent "listing_intent"
      ⟨"listing_price", [], none, none⟩ = HandlerRef.listingFlow) := by
  refine ⟨(dispatch_ignores_step _ _ _ rfl).1, ?_⟩
  exact (dispatch_ignores_step "listing_intent"
    ⟨"listing_price", [], none, none⟩ ⟨"idle", [], none, none⟩ rfl).2.mpr rfl

/-- C7: `update_user_session` applies a partial merge — a field is written
iff its key is present in the update, the context map is replaced wholesale
when provided, and an empty update performs no database write and leaves
the stored session exactly unchanged. -/
theorem session_save_partial_merge (s : Session) (u : SessionUpdate) :
    (u.step = none → (update_user_session s u).1.step = s.step) ∧
    (u.context = none → (update_user_session s u).1.context = s.context) ∧
    (u.last_diamond_id = none →
      (update_user_session s u).1.last_diamond_id = s.last_diamond_id) ∧
    (u.last_design_id = none →
      (update_user_session s u).1.last_design_id = s.last_design_id) ∧
    (∀ v, u.step = some v → (update_user_session s u).1.step = v) ∧
    (∀ c, u.context = some c → (update_user_session s u).1.context = c) ∧
    (∀ v, u.last_diamond_id = some v →
      (update_user_session s u).1.last_diamond_id = some v) ∧
    (∀ v, u.last_design_id = some v →
      (update_user_session s u).1.last_design_id = some v) ∧
    (u = ⟨none, none, none, none⟩ → update_user_session s u = (s, false)) := by
  obtain ⟨us, uc, ud, ug⟩ := u
  rcases us with _ | v1 <;> rcases uc with _ | v2 <;> rcases ud with _ | v3 <;>
    rcases ug with _ | v4 <;>
      simp [update_user_session, sessionUpdateNonempty, applySessionUpdate]

/-- C7 witness: a step-only update rewrites the step and nothing else, and
the empty update is a no-op without a write. -/
theorem session_save_partial_merge_witness :
    (update_user_session sampleMediaSession
      ⟨some "idle", none, none, none⟩).1.context =
      sampleMediaSession.context ∧
    (update_user_session sampleMediaSession
      ⟨some "idle", none, none, none⟩).1.step = "idle" ∧
    update_user_session sampleMediaSession ⟨none, none, none, none⟩ =
      (sampleMediaSession, false) := by
  refine ⟨(session_save_partial_merge sampleMediaSession
      ⟨some "idle", none, none, none⟩).2.1 rfl,
    (session_save_partial_merge sampleMediaSession
      ⟨some "idle", none, none, none⟩).2.2.2.2.1 "idle" rfl,
    (session_save_partial_merge sampleMediaSession
      ⟨none, none, none, none⟩).2.2.2.2.2.2.2.2 rfl⟩

/-- C6: a text classified as `design_with_gia` while the session has no
`last_diamond_id` produces exactly the inbound audit write, the detector
call and the fixed prerequisite-missing message — no design insert and no
session mutation. -/
theorem design_with_gia_prereq_missing (uid text : String) (s : Session)
    (env : Env) (huser : env.userOk = true)
    (hdia : s.last_diamond_id = none) :
    handle_text_message_with uid text s env "design_with_gia" =
      [.saveMessage "incoming" "text" text, .detectIntent text,
       .sendText giaPrereqMsg] ∧
    sessionAfter s (handle_text_message_with uid text s env
      "design_with_gia") = s ∧
    (∀ e ∈ handle_text_message_with uid text s env "design_with_gia",
      isInsertDesign e = false) := by
  have e : handle_text_message_with uid text s env "design_with_gia" =
      [.saveMessage "incoming" "text" text, .detectIntent text,
       .sendText giaPrereqMsg] := by
    simp [handle_text_message_with, huser, dispatch_intent, hdia, pyTruthy,
      handlerEvents]
  refine ⟨e, ?_, ?_⟩
  · rw [e]; simp [sessionAfter]
  · rw [e]
    intro ev hev
    simp only [List.mem_cons, List.not_mem_nil, or_false] at hev
    rcases hev with h | h | h <;> subst h <;> rfl

/-- C6 witness: the theorem at a concrete diamond-less session. -/
theorem design_with_gia_prereq_missing_witness :
    handle_text_message_with "u" "make earrings with this stone"
      ⟨"idle", [], none, none⟩
      ⟨true, false, none, [], fun _ => none, ⟨false, none, none, none⟩,
       none, none, none, false, true⟩ "design_with_gia" =
      [.saveMessage "incoming" "text" "make earrings with this stone",
       .detectIntent "make earrings with this stone",
       .sendText giaPrereqMsg] ∧
    sessionAfter ⟨"idle", [], none, none⟩
      (handle_text_message_with "u" "make earrings with this stone"
        ⟨"idle", [], none, none⟩
        ⟨true, false, none, [], fun _ => none, ⟨false, none, none, none⟩,
         none, none, none, false, true⟩ "design_with_gia") =
      ⟨"idle", [], none, none⟩ := by
  refine ⟨(design_with_gia_prereq_missing "u" "make earrings with this stone"
      ⟨"idle", [], none, none⟩ _ rfl rfl).1,
    (design_with_gia_prereq_missing "u" "make earrings with this stone"
      ⟨"idle", [], none, none⟩ _ rfl rfl).2.1⟩

/-- C5: an edit or a variation on the last-referenced design row persists a
new design record whose `previous_prompt` equals that row's generated
prompt, and (when the insert returns the new row) updates the session's
`last_design_id` to the new record's id. -/
theorem design_lineage_previous_prompt (uid desc : String) (s : Session)
    (prev : DesignRow) (gen : DesignResult) (nid : String)
    (hdes : pyTruthy s.last_design_id = true) (hgen : gen.success = true) :
    (Event.insertDesign ⟨uid, prev.diamond_id, "edit", some desc,
        prev.generated_prompt, gen.prompt, gen.image_url, "completed"⟩ ∈
      handle_design_edit uid desc s (some prev) gen (some nid) false ∧
      (sessionAfter s (handle_design_edit uid desc s (some prev) gen
        (some nid) false)).last_design_id = some nid) ∧
    (Event.insertDesign ⟨uid, prev.diamond_id, "variation", none,
        prev.generated_prompt, gen.prompt, gen.image_url, "completed"⟩ ∈
      handle_design_variation uid s (some prev) gen (some nid) false ∧
      (sessionAfter s (handle_design_variation uid s (some prev) gen
        (some nid) false)).last_design_id = some nid) := by
  have e1 : handle_design_edit uid desc s (some prev) gen (some nid) false =
      [.sendText "✏️ Applying your changes...",
       .insertDesign ⟨uid, prev.diamond_id, "edit", some desc,
         prev.generated_prompt, gen.prompt, gen.image_url, "completed"⟩,
       .updateSession (designIdUpdate nid),
       .sendImage gen.image_url "✨ Updated design"] := by
    simp [handle_design_edit, hdes, hgen]
  have e2 : handle_design_variation uid s (some prev) gen (some nid) false =
      [.sendText "🎨 Generating variation...",
       .insertDesign ⟨uid, prev.diamond_id, "variation", none,
         prev.generated_prompt, gen.prompt, gen.image_url, "completed"⟩,
       .updateSession (designIdUpdate nid),
       .sendImage gen.image_url "✨ Design variation"] := by
    simp [handle_design_variation, hdes, hgen]
  rw [e1, e2]
  refine ⟨⟨by simp, ?_⟩, ⟨by simp, ?_⟩⟩ <;>
    simp [sessionAfter, update_user_session, sessionUpdateNonempty,
      applySessionUpdate, designIdUpdate]

/-- C5 witness: the theorem at a concrete previous design with prompt "P". -/
theorem design_lineage_previous_prompt_witness :
    Event.insertDesign ⟨"u", some "d1", "edit", some "make it gold",
        some "P", some "P2", some "img2", "completed"⟩ ∈
      handle_design_edit "u" "make it gold" ⟨"idle", [], some "d1", some "des1"⟩
        (some ⟨"des1", some "d1", some "P", some "img"⟩)
        ⟨true, some "img2", some "P2", none⟩ (some "des2") false ∧
    (sessionAfter ⟨"idle", [], some "d1", some "des1"⟩
      (handle_design_variation "u" ⟨"idle", [], some "d1", some "des1"⟩
        (some ⟨"des1", some "d1", some "P", some "img"⟩)
        ⟨true, some "img2", some "P2", none⟩ (some "des2")
        false)).last_design_id = some "des2" := by
  exact ⟨((design_lineage_previous_prompt "u" "make it gold"
      ⟨"idle", [], some "d1", some "des1"⟩
      ⟨"des1", some "d1", some "P", some "img"⟩
      ⟨true, some "img2", some "P2", none⟩ "des2" (by decide) rfl).1).1,
    ((design_lineage_previous_prompt "u" "make it gold"
      ⟨"idle", [], some "d1", some "des1"⟩
      ⟨"des1", some "d1", some "P", some "img"⟩
      ⟨true, some "img2", some "P2", none⟩ "des2" (by decide) rfl).2).2⟩

/-- The rejection sent by the document path when extraction fails for a
missing report number (lines 632-637). -/
def docRejectionMsg : String :=
  "❌ Failed to extract GIA data: Could not find GIA report number in image\n\nPlease ensure the document is a valid GIA certificate."

/-- The rejection sent by the image path when extraction is not a usable
certificate (lines 715-719). -/
def imageRejectionMsg : String :=
  "This doesn\x27t appear to be a GIA certificate. If you\x27d like to use this as a design reference, please describe what you\x27d like to create."

/-- C4: when the extracted structure lacks a populated report number, the
extraction wrapper reports failure (and it reports success only when that
identifier is populated), and both certificate-ingestion paths — document
and image (outside the listing-media collection state) — insert no diamond
record and send a rejection message, whatever the other fields hold. -/
theorem missing_identifier_no_diamond (raw : GiaData) (s : Session)
    (uid : String) (uploadId : Option String) (fileUrl newId : String)
    (insertOk : Bool) (hrn : pyTruthy raw.report_number = false)
    (hstep : s.step ≠ "listing_media") :
    (extract_from_image raw).success = false ∧
    (∀ r : GiaData, (extract_from_image r).success = true →
      pyTruthy r.report_number = true) ∧
    handle_document_message uid true true uploadId raw insertOk newId =
      [.sendText "📄 Processing your document...",
       .sendText "🔍 Extracting diamond information...",
       .sendText docRejectionMsg] ∧
    (∀ e ∈ handle_document_message uid true true uploadId raw insertOk newId,
      isInsertDiamond e = false) ∧
    handle_image_message uid s true true uploadId fileUrl raw insertOk newId =
      [.sendText "🖼️ Processing your image...",
       .sendText "🔍 Analyzing image...",
       .sendText imageRejectionMsg] ∧
    (∀ e ∈ handle_image_message uid s true true uploadId fileUrl raw insertOk
        newId, isInsertDiamond e = false) := by
  have hx : extract_from_image raw =
      ⟨false, some raw, some "Could not find GIA report number in image"⟩ := by
    simp [extract_from_image, hrn]
  have hb : (s.step == "listing_media") = false := by
    simpa using hstep
  have edoc : handle_document_message uid true true uploadId raw insertOk
      newId =
      [.sendText "📄 Processing your document...",
       .sendText "🔍 Extracting diamond information...",
       .sendText docRejectionMsg] := by
    simp [handle_document_message, extract_from_pdf, hx, docRejectionMsg]
  have eimg : handle_image_message uid s true true uploadId fileUrl raw
      insertOk newId =
      [.sendText "🖼️ Processing your image...",
       .sendText "🔍 Analyzing image...",
       .sendText imageRejectionMsg] := by
    simp [handle_image_message, hb, hx, imageRejectionMsg]
  refine ⟨by simp [extract_from_image, hrn], ?_, edoc, ?_, eimg, ?_⟩
  · intro r hr
    by_contra hc
    simp [extract_from_image, Bool.not_eq_true] at hc
    simp [extract_from_image, hc] at hr
  · rw [edoc]
    intro ev hev
    simp only [List.mem_cons, List.not_mem_nil, or_false] at hev
    rcases hev with h | h | h <;> subst h <;> rfl
  · rw [eimg]
    intro ev hev
    simp only [List.mem_cons, List.not_mem_nil, or_false] at hev
    rcases hev with h | h | h <;> subst h <;> rfl

/-- A certificate extraction with every field populated except the report
number. -/
def rawNoReport : GiaData :=
  ⟨none, some "6204319557", some "Oval", some "2.0", some "D", some "Natural",
   some "D", none, none, some "VS1", some "Excellent", some "Excellent",
   some "Excellent", some "None", some "0.9"⟩

/-- C4 witness: the theorem at the fully-populated-but-for-the-identifier
extraction. -/
theorem missing_identifier_no_diamond_witness :
    handle_document_message "u" true true (some "up1") rawNoReport true "d9" =
      [.sendText "📄 Processing your document...",
       .sendText "🔍 Extracting diamond information...",
       .sendText docRejectionMsg] ∧
    (extract_from_image rawNoReport).success = false := by
  refine ⟨(missing_identifier_no_diamond rawNoReport
      ⟨"idle", [], none, none⟩ "u" (some "up1") "f.jpg" "d9" true rfl
      (by decide)).2.2.1,
    (missing_identifier_no_diamond rawNoReport
      ⟨"idle", [], none, none⟩ "u" (some "up1") "f.jpg" "d9" true rfl
      (by decide)).1⟩

/-- The flow order of the claim: idle < gia_menu < listing_price <
listing_contact < listing_media (steps outside the enumeration rank 0). -/
def stepRank : String → Nat
  | "gia_menu" => 1
  | "listing_price" => 2
  | "listing_contact" => 3
  | "listing_media" => 4
  | _ => 0

/-- Session reached from idle after a successful certificate ingestion. -/
def chainS1 : Session :=
  sessionAfter ⟨"idle", [], none, none⟩
    (handle_document_message "u" true true (some "up1") placeholder_extraction
      true "d1")

/-- ... after then pressing "List for Sale". -/
def chainS2 : Session := sessionAfter chainS1 (handle_list_for_sale chainS1)

/-- ... after then sending a price. -/
def chainS3 : Session :=
  sessionAfter chainS2 (handle_listing_flow "u" "5000" chainS2 true)

/-- ... after then uploading a second certificate mid-flow. -/
def chainS4 : Session :=
  sessionAfter chainS3
    (handle_document_message "u" true true (some "up2") placeholder_extraction
      true "d2")

/-- C3 counterexample: a session reachable from idle
(idle → gia_menu → listing_price → listing_contact) is moved backward to
`gia_menu` — not an idle reset — by a successful document ingestion during
the listing flow. -/
theorem step_monotonic_counterexample :
    chainS1.step = "gia_menu" ∧ chainS2.step = "listing_price" ∧
    chainS3.step = "listing_contact" ∧ chainS4.step = "gia_menu" ∧
    stepRank chainS4.step < stepRank chainS3.step ∧
    chainS4.step ≠ "idle" := by decide

/-- C3 (amended): within the listing-flow handler itself the step is
monotone — each execution either keeps or advances the step in the order
idle < gia_menu < listing_price < listing_contact < listing_media, or
resets it to `idle` (on commit) — but certificate ingestion
(`handle_document_message`, `handle_image_message`) sets the step to
`gia_menu` from any step, and `handle_list_for_sale` sets it to
`listing_price` from any step, so an interrupted listing flow can move
backward without an idle reset. -/
theorem listing_flow_step_monotonic (uid text : String) (s : Session)
    (ok : Bool) :
    stepRank s.step ≤
      stepRank (sessionAfter s (handle_listing_flow uid text s ok)).step ∨
    (sessionAfter s (handle_listing_flow uid text s ok)).step = "idle" := by
  by_cases h1 : s.step = "listing_price"
  · left
    simp [handle_listing_flow, h1, sessionAfter, update_user_session,
      sessionUpdateNonempty, applySessionUpdate, stepRank]
  by_cases h2 : s.step = "listing_contact"
  · left
    simp [handle_listing_flow, h1, h2, sessionAfter, update_user_session,
      sessionUpdateNonempty, applySessionUpdate, stepRank]
  by_cases h3 : s.step = "listing_media"
  · by_cases h4 : pyLower text = "done"
    · by_cases h5 : ctxGetImages s.context = []
      · left
        simp [handle_listing_flow, h1, h2, h3, h4, h5, sessionAfter]
      · have h5' : (ctxGetImages s.context).isEmpty = false := by
          simpa [List.isEmpty_iff] using h5
        cases ok
        · left
          simp [handle_listing_flow, h1, h2, h3, h4, h5', sessionAfter]
        · right
          simp [handle_listing_flow, h1, h2, h3, h4, h5', sessionAfter,
            update_user_session, sessionUpdateNonempty, applySessionUpdate]
    · left
      simp [handle_listing_flow, h1, h2, h3, h4, sessionAfter]
  · left
    simp [handle_listing_flow, h1, h2, h3, sessionAfter]

/-- An environment in which every external collaborator is quiescent. -/
def quietEnv : Env :=
  ⟨true, false, none, [], fun _ => none, ⟨false, none, none, none⟩,
   none, none, none, false, true⟩

/-- C8 counterexample: handling "sell" at step `listing_price` sends the
contact prompt, yet the handling persists no outgoing message to the audit
log at all — contradicting "every outbound message sent during handling is
persisted to the audit log immediately after its send attempt". -/
theorem outbound_send_not_audited :
    Event.sendText contactPrompt ∈
      handle_text_message "u" "sell" ⟨"listing_price", [], some "d1", none⟩
        quietEnv ∧
    (handle_text_message "u" "sell" ⟨"listing_price", [], some "d1", none⟩
        quietEnv).all (fun e => !(isOutgoingSave e)) = true := by decide

/-- C8 (amended): the inbound message is persisted to the audit log
immediately on receipt, before the intent-detector call and before every
other effect of the handling; but outbound sends are generally not
followed by an outgoing audit write — in particular, handling a
`listing_intent` text at step `listing_price` sends the contact prompt and
writes no outgoing audit record (only the interactive-menu sends,
`send_gia_menu` and `send_main_menu`, are audited). -/
theorem inbound_saved_before_dispatch (uid text : String) (s : Session)
    (env : Env) (intent : String) (huser : env.userOk = true) :
    (∃ rest, handle_text_message_with uid text s env intent =
      Event.saveMessage "incoming" "text" text ::
        Event.detectIntent text :: rest) ∧
    (s.step = "listing_price" →
      Event.sendText contactPrompt ∈
        handle_text_message_with uid text s env "listing_intent" ∧
      (handle_text_message_with uid text s env "listing_intent").all
        (fun e => !(isOutgoingSave e)) = true) := by
  constructor
  · exact ⟨handlerEvents uid text s env (dispatch_intent intent s),
      by simp [handle_text_message_with, huser]⟩
  · intro hstep
    have e : handle_text_message_with uid text s env "listing_intent" =
        [.saveMessage "incoming" "text" text, .detectIntent text,
         .updateSession ⟨some "listing_contact",
           some (ctxSet s.context "price"
             (.s (if pyLower text == "contact" then "Contact for Price"
                  else text))), none, none⟩,
         .sendText contactPrompt] := by
      simp [handle_text_message_with, huser, dispatch_intent, handlerEvents,
        handle_listing_flow, hstep]
    rw [e]
    exact ⟨by simp, by simp [isOutgoingSave]⟩

/-- C8 witness: the amended theorem at the counterexample's inputs. -/
theorem inbound_saved_before_dispatch_witness :
    (∃ rest, handle_text_message_with "u" "sell"
      ⟨"listing_price", [], some "d1", none⟩ quietEnv "listing_intent" =
      Event.saveMessage "incoming" "text" "sell" ::
        Event.detectIntent "sell" :: rest) ∧
    (handle_text_message_with "u" "sell"
      ⟨"listing_price", [], some "d1", none⟩ quietEnv "listing_intent").all
      (fun e => !(isOutgoingSave e)) = true := by
  refine ⟨(inbound_saved_before_dispatch "u" "sell"
      ⟨"listing_price", [], some "d1", none⟩ quietEnv "listing_intent"
      rfl).1,
    ((inbound_saved_before_dispatch "u" "sell"
      ⟨"listing_price", [], some "d1", none⟩ quietEnv "listing_intent"
      rfl).2 rfl).2⟩

/-- C10 witness: "CONTACT" and "Done" behave like their lowercase forms;
"more photos coming" at `listing_media` is a no-op. -/
theorem listing_triggers_case_insensitive_witness :
    (handle_listing_flow "u" "CONTACT" ⟨"listing_price", [], some "d1", none⟩
        true =
      handle_listing_flow "u" "contact" ⟨"listing_price", [], some "d1", none⟩
        true) ∧
    (handle_listing_flow "u" "Done" sampleMediaSession true =
      handle_listing_flow "u" "done" sampleMediaSession true) ∧
    handle_listing_flow "u" "more photos coming" sampleMediaSession true =
      [] := by
  refine ⟨((listing_triggers_case_insensitive "u" "CONTACT"
      ⟨"listing_price", [], some "d1", none⟩ true).1 (by decide) rfl).1,
    (listing_triggers_case_insensitive "u" "Done" sampleMediaSession true).2.1
      (by decide) rfl,
    (listing_triggers_case_insensitive "u" "more photos coming"
      sampleMediaSession true).2.2 (by decide) rfl⟩
